import Mathlib

/-!
Shallow embedding of the indiwebmanager core (driver registry, process
runner, server supervisor, INDI protocol client) and proofs about the
claims of its specification.  Python floats are modelled by exact
rationals; Python dicts by insertion-ordered association lists; methods
that mutate `self` by explicit state passing; methods that may raise by
`Except`/products with an error component.
-/

set_option autoImplicit false

namespace IndiWeb

/-! ## ProcessRunner: `AsyncSystemCommand` (src/indiweb/AsyncSystemCommand.py)

State of one handle.  `processSpawned` models `self.process is not None`;
`finished` models `self.finished`.  Output capture and locking are not
observable by the claims and are omitted from the state.
-/

structure AsyncSystemCommand where
  command : String
  processSpawned : Bool
  finished : Bool
  deriving DecidableEq, Repr

/-- `__init__`: `self.process = None`, `self.finished = False`. -/
def AsyncSystemCommand.init (cmd : String) : AsyncSystemCommand :=
  { command := cmd, processSpawned := false, finished := false }

/-- `is_running`: `return not self.finished` (under the lock). -/
def AsyncSystemCommand.is_running (s : AsyncSystemCommand) : Bool :=
  !s.finished

/-- The exception re-raised by `terminate` when `os.killpg` fails. -/
inductive TerminateOutcome
  | raised
  deriving DecidableEq, Repr

/-- `terminate`: if `self.process and not self.finished`, send SIGTERM to the
process group; on failure the exception is logged and then **re-raised**
(`raise e`), while the `finally` block sets `finished = True` either way.
If the guard is false the method is a no-op.  `killpgFails` models whether
`os.killpg` raises (e.g. the process group is already gone).  The first
component is `some .raised` exactly when the method raises to its caller. -/
def AsyncSystemCommand.terminate (s : AsyncSystemCommand) (killpgFails : Bool) :
    Option TerminateOutcome × AsyncSystemCommand :=
  if s.processSpawned && !s.finished then
    if killpgFails then
      (some .raised, { s with finished := true })
    else
      (none, { s with finished := true })
  else
    (none, s)

/-- `run`, observed after it returns: the `finally` block always sets
`finished = True`; the process was spawned iff `subprocess.Popen` did not
raise. -/
def AsyncSystemCommand.runCompleted (s : AsyncSystemCommand) (spawnOk : Bool) :
    AsyncSystemCommand :=
  { s with processSpawned := spawnOk, finished := true }

/-! ## DriverRegistry: `DeviceDriver` / `DriverCollection` (src/indiweb/driver.py) -/

/-- A lifecycle rule attached to a driver (`driver.rule`, a dict).
Delays are in seconds; `preScript`/`postScript` are `none` when the rule
carries no such script, and `some ok` when it does, where `ok` records
whether `subprocess.check_output` of that script succeeds (`false` models
the script raising). -/
structure Rule where
  preDelay : Nat := 0
  postDelay : Nat := 0
  preScript : Option Bool := none
  postScript : Option Bool := none
  deriving DecidableEq, Repr

/-- `DeviceDriver.__init__` (src/indiweb/driver.py:16).  `binary` holds the
text content of the descriptor's `driver` element (empty text modelled as
`""`). -/
structure DeviceDriver where
  name : String
  label : String
  skeleton : Option String := none
  version : String := "0.0"
  binary : String
  family : String
  mdpd : Bool := false
  custom : Bool := false
  rule : Option Rule := none
  deriving DecidableEq, Repr

/-! ### Descriptor XML input model

`parse_drivers` reads each file with `xml.etree.ElementTree`.  A file is
either unparsable markup (`ET.parse` raises `ET.ParseError`) or a parsed
tree of `devGroup` elements.  Attributes read with `attrib['k']` raise
`KeyError` when absent, modelled by `Option`; `device.find('driver')`
returns `None` when absent, and the subsequent `.attrib` access raises
`AttributeError`. -/

structure DriverNode where
  name : Option String
  binary : String
  deriving DecidableEq, Repr

structure DeviceXml where
  label : Option String
  skel : Option String
  mdpd : Bool
  driver : Option DriverNode
  version : Option String
  deriving DecidableEq, Repr

structure DevGroup where
  family : Option String
  devices : List DeviceXml
  deriving DecidableEq, Repr

inductive XmlFile
  | malformed
  | parsed (groups : List DevGroup)
  deriving DecidableEq, Repr

/-- Errors that escape the per-device loop of `parse_drivers`:
`keyError` (a required attribute absent) is caught by the per-file
`except KeyError` handler; `attributeError` (`device.find('driver')`
returned `None` and `.attrib` was taken on it) is caught by **no**
handler. -/
inductive FileErr
  | keyError
  | attributeError
  deriving DecidableEq, Repr

/-- One device element of one `devGroup` (src/indiweb/driver.py:81-93).
Produces a driver, or the error that the corresponding Python statements
raise. -/
def parseDevice (path : String) (family : String) (d : DeviceXml) :
    Except FileErr DeviceDriver := do
  let label ← match d.label with
    | some l => .ok l
    | none => .error .keyError
  let drv ← match d.driver with
    | some drv => .ok drv
    | none => .error .attributeError
  let name ← match drv.name with
    | some n => .ok n
    | none => .error .keyError
  let version := d.version.getD "0.0"
  let skelFile := d.skel.map (fun s => path ++ "/" ++ s)
  .ok { name := name, label := label, skeleton := skelFile,
        version := version, binary := drv.binary, family := family,
        mdpd := d.mdpd, custom := false, rule := none }

/-- The device loop of one `devGroup`.  Drivers are appended one at a time
(`self.drivers.append`), so the drivers seen before a raising device are
kept even when the loop aborts. -/
def parseGroupDevices (path : String) (family : String) :
    List DeviceXml → List DeviceDriver × Option FileErr
  | [] => ([], none)
  | d :: rest =>
    match parseDevice path family d with
    | .error e => ([], some e)
    | .ok drv =>
      let (tail, err) := parseGroupDevices path family rest
      (drv :: tail, err)

/-- The `devGroup` loop of one file (src/indiweb/driver.py:78-93). -/
def parseFileGroups (path : String) :
    List DevGroup → List DeviceDriver × Option FileErr
  | [] => ([], none)
  | g :: rest =>
    match g.family with
    | none => ([], some .keyError)
    | some family =>
      match parseGroupDevices path family g.devices with
      | (ds, some e) => (ds, some e)
      | (ds, none) =>
        let (tail, err) := parseFileGroups path rest
        (ds ++ tail, err)

/-- Stable insert for sorting by `label`: the new element goes after every
already-placed element whose label is not greater. -/
def insertByLabel (d : DeviceDriver) : List DeviceDriver → List DeviceDriver
  | [] => [d]
  | e :: rest =>
    if d.label < e.label then d :: e :: rest else e :: insertByLabel d rest

/-- `self.drivers.sort(key=lambda x: x.label)`: Python `list.sort` is a
stable sort by the label key; any stable sort by the same key produces the
same list, so a stable insertion sort models it exactly.  (Python string
comparison is by code points, as is `String.lt`.) -/
def sortByLabel (l : List DeviceDriver) : List DeviceDriver :=
  l.foldl (fun acc d => insertByLabel d acc) []

/-- `DriverCollection.parse_drivers` (src/indiweb/driver.py:60-101), over an
already-listed sequence of descriptor files.  Per file, `ET.ParseError`
and `KeyError` are logged and parsing continues with the next file
(drivers appended before a `KeyError` are kept); an `AttributeError`
matches no `except` clause and propagates, aborting the whole scan.
On success the accumulated list is sorted by `label`. -/
def parse_drivers (path : String) (files : List XmlFile) :
    Except FileErr (List DeviceDriver) := do
  let mut acc : List DeviceDriver := []
  for f in files do
    match f with
    | .malformed => pure ()
    | .parsed groups =>
      match parseFileGroups path groups with
      | (ds, none) => acc := acc ++ ds
      | (ds, some .keyError) => acc := acc ++ ds
      | (_, some .attributeError) => throw .attributeError
  return sortByLabel acc

/-- Python `str.startswith`: character-wise prefix test. -/
def pyStartsWith (s pre : String) : Bool :=
  pre.data.isPrefixOf s.data

/-- `DriverCollection.by_label` (src/indiweb/driver.py:121-139): exact match
over the whole list first, then a fallback returning the first driver whose
label the query starts with (`label.startswith(driver.label)`). -/
def by_label (drivers : List DeviceDriver) (label : String) :
    Option DeviceDriver :=
  match drivers.find? (fun d => d.label = label) with
  | some d => some d
  | none => drivers.find? (fun d => pyStartsWith label d.label)

/-! ## ServerSupervisor: `IndiServer` (src/indiweb/indi_server.py)

The observable state retained by the embedding is the running-driver dict
`self.__running_drivers` (label → `DeviceDriver`), modelled as an
insertion-ordered association list with Python-dict assignment
semantics. -/

/-- Python dict assignment `m[k] = v` on an insertion-ordered association
list: replace the value in place when the key is present, else append at
the end. -/
def dictInsert {α : Type} : List (String × α) → String → α → List (String × α)
  | [], k, v => [(k, v)]
  | p :: rest, k, v =>
    if p.1 = k then (k, v) :: rest else p :: dictInsert rest k v

/-- Python dict lookup `m.get(k)` on an insertion-ordered association
list. -/
def dictFind {α : Type} : List (String × α) → String → Option α
  | [], _ => none
  | p :: rest, k => if p.1 = k then some p.2 else dictFind rest k

abbrev RunningDrivers := List (String × DeviceDriver)

structure IndiServer where
  runningDrivers : RunningDrivers
  deriving DecidableEq, Repr

/-- Whether `check_output(script)` of the rule's pre-script succeeds:
`True` when there is no rule or no `PreScript`; otherwise the recorded
outcome. -/
def preScriptOk (r : Option Rule) : Bool :=
  match r with
  | none => true
  | some r =>
    match r.preScript with
    | none => true
    | some ok => ok

/-- Whether the rule's post-script succeeds (same shape as `preScriptOk`). -/
def postScriptOk (r : Option Rule) : Bool :=
  match r with
  | none => true
  | some r =>
    match r.postScript with
    | none => true
    | some ok => ok

/-- `IndiServer.start_driver` (src/indiweb/indi_server.py:97-165) as a state
transition.  A failing pre-script aborts before the FIFO write; a failing
post-script aborts after the FIFO write but **before** the bookkeeping
line `self.__running_drivers[driver.label] = driver`, so in both cases the
running-driver dict is unchanged.  On the success path the driver is
recorded under its label.  (Delays are sleeps and do not affect state; the
FIFO write itself is an external effect.) -/
def IndiServer.start_driver (s : IndiServer) (driver : DeviceDriver) :
    IndiServer :=
  if !preScriptOk driver.rule then s
  else if !postScriptOk driver.rule then s
  else { s with runningDrivers := dictInsert s.runningDrivers driver.label driver }

/-- The FIFO command composed by `start_driver` before quote escaping:
`start <binary>[ -s "<skeleton>"][ -n "<label>"]`, the label flag omitted
for remote (`@` in binary) or MDPD drivers. -/
def startDriverCommand (driver : DeviceDriver) : String :=
  let cmd := "start " ++ driver.binary
  let cmd := match driver.skeleton with
    | some skel => cmd ++ " -s \"" ++ skel ++ "\""
    | none => cmd
  if !(driver.binary.data.any (fun c => c = '@')) && !driver.mdpd then
    cmd ++ " -n \"" ++ driver.label ++ "\""
  else
    cmd

/-- `IndiServer.start` (src/indiweb/indi_server.py:238-268) composed with the
background queue drain observed by `wait_for_drivers_started`.

Modelled from the spec: `wait_for_drivers_started` is invoked by the HTTP
layer (src/indiweb/routes.py:278) but its definition is absent from the
sources; §4.3 of the spec says it "blocks the caller until the background
start-worker's queue has drained or the timeout elapses", and §5 says the
queue is drained by exactly one worker thread in enqueue order.  The
drained state is therefore the sequential fold of `start_driver` over the
driver list, applied to the freshly reset running-driver dict
(`self.__running_drivers = {}` in `start`). -/
def IndiServer.startAndWaitForDriversStarted (drivers : List DeviceDriver) :
    IndiServer :=
  drivers.foldl IndiServer.start_driver { runningDrivers := [] }

/-- `IndiServer.get_running_drivers` (src/indiweb/indi_server.py:430-438). -/
def IndiServer.get_running_drivers (s : IndiServer) : RunningDrivers :=
  s.runningDrivers

/-! ### `IndiServer.is_running` and the `psutil` process-table scan

`is_running` (src/indiweb/indi_server.py:323-362) first consults the
`AsyncSystemCommand` handle; if that does not answer `True` it attempts
`import psutil` inside a `try` whose handler clause is
`except (ImportError, psutil.Error, ValueError, IndexError)`.  Python
evaluates that tuple expression only when an exception arrives: if the
`import` itself raised `ImportError`, the name `psutil` was never bound,
so evaluating `psutil.Error` raises `NameError`, which matches no handler
and propagates out of `is_running`.  When the import succeeds, a
`psutil.Error`/`ValueError`/`IndexError` from the scan is caught, logged
and control falls through to `return False`. -/

inductive PyError
  | nameError
  deriving DecidableEq, Repr

/-- Environment of the process-table scan: whether `import psutil`
succeeds, and — when it does — the scan outcome (`.ok b`: the scan
completes and `b` says whether an `indiserver` process on the resolved
port was found; `.error ()`: the scan raises one of `psutil.Error`,
`ValueError`, `IndexError`). -/
structure PsutilEnv where
  importOk : Bool
  scan : Except Unit Bool
  deriving Repr

/-- `IndiServer.is_running`, with `handleRunning` standing for
`self.__async_cmd and self.__async_cmd.is_running()`. -/
def IndiServer.is_running (handleRunning : Bool) (env : PsutilEnv) :
    Except PyError Bool :=
  if handleRunning then .ok true
  else if env.importOk then
    match env.scan with
    | .ok found => .ok found
    | .error _ => .ok false
  else
    .error .nameError

/-! ## ProtocolClient: `INDIClient` (src/indiweb/indi_client.py)

Python floats are modelled by exact rationals; the rounding performed by
`f"{x:05.2f}"` style formatting is round-half-to-even, which is what both
Python's float formatting and `round()` perform (on the exact value of
the float; the representation error of a binary64 is far below the
rounding granularity at every input considered here). -/

/-- Round to the nearest integer, ties to even. -/
def roundHalfEven (x : ℚ) : ℤ :=
  let f := ⌊x⌋
  let r := x - f
  if r < 1 / 2 then f
  else if 1 / 2 < r then f + 1
  else if f % 2 = 0 then f else f + 1

/-- Left-pad a digit string with zeros to a minimum width
(Python `{:0Nd}` on a nonnegative integer, and the padding step of
`{:0N.Mf}`). -/
def padZeros (s : String) (w : Nat) : String :=
  if w ≤ s.length then s else String.mk (List.replicate (w - s.length) '0') ++ s

/-- Python `f"{n:0Wd}"` for a nonnegative integer. -/
def pyFormatInt (n : Nat) (width : Nat) : String :=
  padZeros (toString n) width

/-- Python `f"{x:0W.Df}"` for a nonnegative value: round to `D` decimals
(half to even), render with exactly `D` decimals (none when `D = 0`),
zero-pad to total width `W`. -/
def pyFormatFixed (x : ℚ) (width decimals : Nat) : String :=
  let n : Nat := (roundHalfEven (x * (10 : ℚ) ^ decimals)).toNat
  if decimals = 0 then
    padZeros (toString n) width
  else
    padZeros (toString (n / 10 ^ decimals) ++ "." ++
      padZeros (toString (n % 10 ^ decimals)) decimals) width

/-- Decimal digit run to a number. -/
def digitsToNat (ds : List Char) : Nat :=
  ds.foldl (fun n c => 10 * n + (c.toNat - '0'.toNat)) 0

/-- The regular expression match `re.match(r'%(\d+)(?:\.(\d+))?m', s)` of
`_format_sexagesimal` (src/indiweb/indi_client.py:565): a leading `%`,
one or more digits (the width), optionally a dot followed by one or more
digits (the precision), then `m`; trailing characters are ignored
(`re.match` anchors only at the start). -/
def parseSexFormat (s : String) : Option (Nat × Option Nat) :=
  match s.data with
  | '%' :: rest =>
    let (ws, rest1) := rest.span (fun c => c.isDigit)
    if ws.isEmpty then none
    else
      match rest1 with
      | 'm' :: _ => some (digitsToNat ws, none)
      | '.' :: rest2 =>
        let (fs, rest3) := rest2.span (fun c => c.isDigit)
        if fs.isEmpty then none
        else
          match rest3 with
          | 'm' :: _ => some (digitsToNat ws, some (digitsToNat fs))
          | _ => none
      | _ => none
  | _ => none

/-- The rendering core of `_format_sexagesimal`
(src/indiweb/indi_client.py:576-602), applied to the absolute value `a`
of the input (so `a ≥ 0` and `int()` truncation equals `⌊·⌋`):
`degrees = int(a)`, `minutes_float = (a - degrees) * 60`,
`minutes = int(minutes_float)`, `seconds = (minutes_float - minutes) * 60`,
then one format per precision code, any unknown precision falling back to
the precision-9 rendering. -/
def renderSexMagnitude (a : ℚ) (precision : Nat) : String :=
  let degrees : Nat := (⌊a⌋).toNat
  let minutesFloat : ℚ := (a - (degrees : ℚ)) * 60
  let minutes : Nat := (⌊minutesFloat⌋).toNat
  let seconds : ℚ := (minutesFloat - (minutes : ℚ)) * 60
  if precision = 9 then
    pyFormatInt degrees 2 ++ ":" ++ pyFormatInt minutes 2 ++ ":" ++
      pyFormatFixed seconds 5 2
  else if precision = 8 then
    pyFormatInt degrees 2 ++ ":" ++ pyFormatInt minutes 2 ++ ":" ++
      pyFormatFixed seconds 4 1
  else if precision = 6 then
    pyFormatInt degrees 2 ++ ":" ++ pyFormatInt minutes 2 ++ ":" ++
      pyFormatFixed seconds 2 0
  else if precision = 5 then
    pyFormatInt degrees 2 ++ ":" ++
      pyFormatFixed ((minutes : ℚ) + seconds / 60) 4 1
  else if precision = 3 then
    pyFormatInt degrees 2 ++ ":" ++
      pyFormatInt (roundHalfEven ((minutes : ℚ) + seconds / 60)).toNat 2
  else
    pyFormatInt degrees 2 ++ ":" ++ pyFormatInt minutes 2 ++ ":" ++
      pyFormatFixed seconds 5 2

/-- `INDIClient._format_sexagesimal` (src/indiweb/indi_client.py:550-612):
parse the specifier (`str(value)` fallback when the pattern does not
match), default the precision to the width, compute the sign separately
(`is_negative = value < 0`, `abs_value = abs(value)`), render the
magnitude, re-attach a leading `-` for negative input. -/
def formatSexagesimal (value : ℚ) (fmt : String) : String :=
  match parseSexFormat fmt with
  | none => toString value
  | some (width, precOpt) =>
    let precision := precOpt.getD width
    let isNegative := value < 0
    let absValue := |value|
    let result := renderSexMagnitude absValue precision
    if isNegative then "-" ++ result else result

/-! ### `set_property` (src/indiweb/indi_client.py:314-462) -/

/-- One property as stored in `self.properties[device][name]`; only the
fields `set_property` reads are carried (`elements` maps element name to
its raw value; `set_property` only tests key membership and reads
values). -/
structure IndiProperty where
  name : String
  ptype : String
  perm : String
  elements : List (String × String)
  deriving DecidableEq, Repr

abbrev DeviceProps := List (String × IndiProperty)

/-- `self.properties`: device name → property name → property. -/
abbrev ClientModel := List (String × DeviceProps)

/-- `INDIClient.get_property` (src/indiweb/indi_client.py:296-299). -/
def get_property (model : ClientModel) (device prop : String) :
    Option IndiProperty :=
  (dictFind model device).bind (fun props => dictFind props prop)

/-- The structured result dict of `set_property`, by its `error_type`
string (`success: True` for the success dict). -/
inductive SetPropertyResult
  | success
  | propertyNotFound
  | permissionDenied
  | elementNotFound (element : String)
  | invalidValue (element : String)
  | unsupportedType
  | deviceNotFound
  | communicationError
  deriving DecidableEq, Repr

/-- Outcome of the PyIndi send phase of `set_property`
(src/indiweb/indi_client.py:402-452): whether `self.getDevice` finds the
device, whether `device.getProperty` finds the property object, and
whether `sendNewProperty` raises. -/
structure SendEnv where
  deviceFound : Bool
  propertyObjFound : Bool
  sendOk : Bool
  deriving DecidableEq, Repr

/-- The send phase shared by the three type branches. -/
def sendPhase (env : SendEnv) : SetPropertyResult :=
  if !env.deviceFound then .deviceNotFound
  else if !env.propertyObjFound then .propertyNotFound
  else if !env.sendOk then .communicationError
  else .success

/-- Python `prop_type[5:]` after the `startswith('indi_')` test. -/
def normalizePropType (t : String) : String :=
  if pyStartsWith t "indi_" then String.mk (t.data.drop 5) else t

/-- `INDIClient.set_property` (src/indiweb/indi_client.py:314-462).
`pyFloat v` models whether Python `float(v)` succeeds.  The method never
assigns to `self.properties`, so the model component of the result is
always the input model; validation order follows the source: property
lookup, then the permission gate (`perm not in ['rw', 'wo']`), then
element-name membership over the supplied names in order, then the
per-type value checks in order, then the send phase. -/
def set_property (pyFloat : String → Bool) (env : SendEnv)
    (model : ClientModel) (device prop : String)
    (elements : List (String × String)) : SetPropertyResult × ClientModel :=
  match get_property model device prop with
  | none => (.propertyNotFound, model)
  | some p =>
    if !(p.perm = "rw" || p.perm = "wo") then (.permissionDenied, model)
    else
      match elements.find? (fun e => (dictFind p.elements e.1).isNone) with
      | some e => (.elementNotFound e.1, model)
      | none =>
        let t := normalizePropType p.ptype
        if t = "text" then (sendPhase env, model)
        else if t = "number" then
          match elements.find? (fun e => !pyFloat e.2) with
          | some e => (.invalidValue e.1, model)
          | none => (sendPhase env, model)
        else if t = "switch" then
          match elements.find?
              (fun e => !(e.2 = "On" || e.2 = "Off" || e.2 = "ON" || e.2 = "OFF")) with
          | some e => (.invalidValue e.1, model)
          | none => (sendPhase env, model)
        else (.unsupportedType, model)

/-! ### Dirty-property tracking

Modelled from the spec: `get_dirty_properties` is invoked by the HTTP
layer (src/indiweb/main.py:752) but no definition of it, nor of the dirty
sets it drains, appears in the sources.  Spec §3 "DirtySet": a per-device
set of property names changed since last drained; every definition or
update event adds the property name; draining (reading) the set clears
it; created lazily per device on first event.  Spec §4.4: property
definition and update handling "marks dirty"; `getDirtyProperties(device)`
"drains and returns the set of property names changed since the last
drain". -/

/-- Modelled from the spec: the per-device dirty sets (device name → set
of property names, the set kept as a duplicate-free list). -/
structure DirtySets where
  dirty : List (String × List String)
  deriving DecidableEq, Repr

/-- Add a name to a set kept as a duplicate-free list. -/
def setAdd (l : List String) (x : String) : List String :=
  if x ∈ l then l else l ++ [x]

/-- Modelled from the spec: mark one property of one device dirty
(creating the device's set lazily on first event). -/
def DirtySets.mark (s : DirtySets) (device prop : String) : DirtySets :=
  match dictFind s.dirty device with
  | some names => ⟨dictInsert s.dirty device (setAdd names prop)⟩
  | none => ⟨dictInsert s.dirty device [prop]⟩

/-- The dirty names currently recorded for a device. -/
def DirtySets.names (s : DirtySets) (device : String) : List String :=
  (dictFind s.dirty device).getD []

/-- The property-definition and property-update events of the receive
loop, as far as the dirty sets observe them. -/
inductive IndiEvent
  | defineProperty (device prop : String)
  | updateProperty (device prop : String)
  deriving DecidableEq, Repr

/-- Modelled from the spec: both the definition handler and the update
handler mark the property dirty. -/
def DirtySets.applyEvent (s : DirtySets) : IndiEvent → DirtySets
  | .defineProperty device prop => s.mark device prop
  | .updateProperty device prop => s.mark device prop

/-- Fold of the receive loop's events over the dirty sets. -/
def DirtySets.applyEvents (s : DirtySets) (evs : List IndiEvent) : DirtySets :=
  evs.foldl DirtySets.applyEvent s

/-- Modelled from the spec: `get_dirty_properties(device)` drains and
returns the set of property names changed since the last drain, clearing
the device's set. -/
def DirtySets.get_dirty_properties (s : DirtySets) (device : String) :
    List String × DirtySets :=
  (s.names device, ⟨dictInsert s.dirty device []⟩)

/-! ## Concrete fixtures used by individual claim theorems -/

/-- A driver with no lifecycle rule, for the round-trip witness. -/
def testDriver : DeviceDriver :=
  { name := "indi_simulator_ccd", label := "CCD Simulator",
    binary := "indi_simulator_ccd", family := "CCDs" }

/-- A driver whose label is a proper prefix of another driver's label. -/
def cexDriverA : DeviceDriver :=
  { name := "indi_a", label := "A", binary := "indi_a", family := "CCDs" }

/-- A driver whose label extends `cexDriverA`'s label. -/
def cexDriverAB : DeviceDriver :=
  { name := "indi_ab", label := "AB", binary := "indi_ab", family := "CCDs" }

/-- A descriptor file whose single device is well formed. -/
def cexGoodFile : XmlFile :=
  .parsed [{ family := some "Telescopes",
             devices := [{ label := some "Telescope Simulator", skel := none,
                           mdpd := false,
                           driver := some { name := some "indi_simulator_telescope",
                                            binary := "indi_simulator_telescope" },
                           version := some "1.0" }] }]

/-- The driver `cexGoodFile` declares (with the skeleton path resolution and
version default of `parse_drivers`). -/
def cexGoodDriver : DeviceDriver :=
  { name := "indi_simulator_telescope", label := "Telescope Simulator",
    version := "1.0", binary := "indi_simulator_telescope",
    family := "Telescopes" }

/-- A descriptor file whose device element has no `driver` child:
`device.find('driver')` returns `None` and `drv.attrib['name']` raises
`AttributeError`. -/
def cexBadFile : XmlFile :=
  .parsed [{ family := some "CCDs",
             devices := [{ label := some "CCD Simulator", skel := none,
                           mdpd := false, driver := none, version := none }] }]

/-- A descriptor file whose device lacks the required `label` attribute:
`device.attrib['label']` raises `KeyError`, which the per-file handler
catches. -/
def cexKeyErrFile : XmlFile :=
  .parsed [{ family := some "Focusers",
             devices := [{ label := none, skel := none, mdpd := false,
                           driver := some { name := some "indi_focus",
                                            binary := "indi_focus" },
                           version := none }] }]

/-- A read-only text property, for the `set_property` witness. -/
def cexInfoProp : IndiProperty :=
  { name := "INFO", ptype := "text", perm := "ro",
    elements := [("DRIVER_NAME", "indi_simulator_ccd")] }

/-- A writable switch property, for the `set_property` witness. -/
def cexConnectionProp : IndiProperty :=
  { name := "CONNECTION", ptype := "switch", perm := "rw",
    elements := [("CONNECT", "Off"), ("DISCONNECT", "On")] }

/-- A device model holding one read-only text property and one writable
switch property, for the `set_property` witness. -/
def cexClientModel : ClientModel :=
  [("CCD Simulator", [("INFO", cexInfoProp), ("CONNECTION", cexConnectionProp)])]

/-- A send environment in which every external step succeeds. -/
def cexSendEnv : SendEnv :=
  { deviceFound := true, propertyObjFound := true, sendOk := true }

/-! ## Theorems -/

set_option allowUnsafeReducibility true

attribute [local semireducible] Rat.mul Rat.add Rat.sub Rat.inv

/-! ### Helper lemmas on the dict model -/

theorem dictFind_dictInsert_self {α : Type} (m : List (String × α)) (k : String)
    (v : α) : dictFind (dictInsert m k v) k = some v := by
  induction m with
  | nil => simp [dictInsert, dictFind]
  | cons p rest ih =>
    by_cases h : p.1 = k
    · simp [dictInsert, dictFind, h]
    · simp [dictInsert, dictFind, h, ih]

theorem dictFind_dictInsert_ne {α : Type} (m : List (String × α)) (k l : String)
    (v : α) (h : l ≠ k) : dictFind (dictInsert m k v) l = dictFind m l := by
  induction m with
  | nil => simp [dictInsert, dictFind, Ne.symm h]
  | cons p rest ih =>
    by_cases hp : p.1 = k
    · subst hp
      simp [dictInsert, dictFind, Ne.symm h]
    · by_cases hl : p.1 = l
      · simp [dictInsert, dictFind, hp, hl, h]
      · simp [dictInsert, dictFind, hp, hl, ih]

/-! ### C10 -/

/-- C10: a freshly constructed `AsyncSystemCommand` handle, on which neither
`run` nor `terminate` has acted, reports `is_running() = True`: the
`finished` flag is initialized to `False`, so the handle claims to be
running while still in the not-started state. -/
theorem C10_fresh_handle_reports_running (cmd : String) :
    (AsyncSystemCommand.init cmd).is_running = true ∧
    (AsyncSystemCommand.init cmd).finished = false := by
  constructor <;> rfl

/-! ### C7 -/

/-- C7 counterexample: on a handle with a live process (`process` set,
`finished = False`), a failing `os.killpg` makes `terminate` raise
(`raise e` in the handler), contradicting the claim that a signalling
failure is logged and `terminate` still returns normally. -/
theorem C7_terminate_counterexample :
    (AsyncSystemCommand.terminate
      { command := "indiserver -p 7624", processSpawned := true, finished := false }
      true).1 = some .raised := by
  rfl

/-- C7 amended: `terminate` is a no-op on a handle that is already finished
or was never started; when the process group signal fails, the failure is
logged and the handle is still marked finished, but the exception is
re-raised to the caller rather than swallowed. -/
theorem C7_terminate_amended :
    (∀ (s : AsyncSystemCommand) (fails : Bool), s.finished = true →
      s.terminate fails = (none, s)) ∧
    (∀ (s : AsyncSystemCommand) (fails : Bool), s.processSpawned = false →
      s.terminate fails = (none, s)) ∧
    (∀ s : AsyncSystemCommand, s.processSpawned = true → s.finished = false →
      (s.terminate true).1 = some .raised ∧ (s.terminate true).2.finished = true) := by
  refine ⟨fun s fails h => ?_, fun s fails h => ?_, fun s h1 h2 => ?_⟩
  · simp [AsyncSystemCommand.terminate, h]
  · simp [AsyncSystemCommand.terminate, h]
  · simp [AsyncSystemCommand.terminate, h1, h2]

/-- C7 witness: the amended theorem applied to concrete handles. -/
theorem C7_terminate_amended_witness :
    ((AsyncSystemCommand.mk "indiserver" true true).finished = true ∧
      (AsyncSystemCommand.mk "indiserver" true true).terminate true =
        (none, AsyncSystemCommand.mk "indiserver" true true)) ∧
    ((AsyncSystemCommand.mk "indiserver" true false).processSpawned = true ∧
      (AsyncSystemCommand.mk "indiserver" true false).finished = false ∧
      ((AsyncSystemCommand.mk "indiserver" true false).terminate true).1 = some .raised) :=
  ⟨⟨rfl, C7_terminate_amended.1 _ true rfl⟩,
   ⟨rfl, rfl, (C7_terminate_amended.2.2 _ rfl rfl).1⟩⟩

/-! ### C8 -/

/-- C8: `IndiServer.is_running` is claimed never to raise when `psutil` is
unavailable.  In the source the handler clause
`except (ImportError, psutil.Error, ValueError, IndexError)` is evaluated
after `import psutil` has raised `ImportError`, so the name `psutil` is
unbound and the clause itself raises `NameError`, which propagates to the
caller: the first conjunct evaluates the failing input.  The remaining
conjuncts show the two paths the claim describes that do work: a scan
error with `psutil` importable is caught and yields the handle-based
`False`, and a running handle short-circuits before the scan. -/
theorem C8_is_running_nameError :
    IndiServer.is_running false { importOk := false, scan := .ok false }
      = .error .nameError ∧
    IndiServer.is_running false { importOk := true, scan := .error () }
      = .ok false ∧
    IndiServer.is_running true { importOk := false, scan := .ok false }
      = .ok true := by
  refine ⟨rfl, rfl, rfl⟩

/-! ### C5 -/

/-- C5: the claim says a descriptor file with missing required fields is
skipped and the scan continues.  A device element lacking a `driver`
child is such a file, but `parse_drivers` raises `AttributeError` on it
(`device.find('driver')` returns `None`; only `KeyError` and
`ET.ParseError` are caught), aborting the whole scan — first conjunct.
The other conjuncts show the recovery the claim describes does hold for
the caught error classes: unparsable markup and a missing required
attribute are skipped and the remaining files' drivers are returned. -/
theorem C5_parse_drivers_attributeError_aborts :
    parse_drivers "/usr/share/indi" [cexGoodFile, cexBadFile]
      = .error .attributeError ∧
    parse_drivers "/usr/share/indi" [cexBadFile, cexGoodFile]
      = .error .attributeError ∧
    parse_drivers "/usr/share/indi" [.malformed, cexGoodFile, cexKeyErrFile]
      = .ok [cexGoodDriver] := by
  refine ⟨rfl, rfl, rfl⟩

/-! ### C9 -/

/-- C9 counterexample: in the label-sorted collection
`[cexDriverA, cexDriverAB]` (labels `"A"` and `"AB"`), take the driver
labelled `L = "AB"` and suffix `"C"`: `by_label` on `"AB" ++ "C"` has no
exact match and the prefix fallback returns the first driver in list
order whose label is a prefix of the query — the driver labelled `"A"`,
not the driver labelled `"AB"` as the claim requires. -/
theorem C9_by_label_counterexample :
    by_label [cexDriverA, cexDriverAB] ("AB" ++ "C") = some cexDriverA ∧
    cexDriverA ≠ cexDriverAB ∧ cexDriverAB.label = "AB" := by
  refine ⟨rfl, by decide, rfl⟩

/-- C9 amended: after `load`, `byLabel(L)` for an existing label `L` returns
a driver whose label equals `L` (exact match over the whole list first);
when no driver's label equals the query, `byLabel` returns the first
driver in list order whose label is a prefix of the query; in particular
`byLabel(L + suffix)` returns the driver labelled `L` whenever no
**other** driver's label is a prefix of `L + suffix` — but not in
general. -/
theorem C9_by_label_amended :
    (∀ (ds : List DeviceDriver) (d : DeviceDriver), d ∈ ds →
      ∃ e, by_label ds d.label = some e ∧ e.label = d.label) ∧
    (∀ (ds : List DeviceDriver) (q : String), (∀ e ∈ ds, e.label ≠ q) →
      by_label ds q = ds.find? (fun d => pyStartsWith q d.label)) ∧
    (∀ (ds : List DeviceDriver) (d : DeviceDriver) (q : String), d ∈ ds →
      pyStartsWith q d.label = true →
      (∀ e ∈ ds, e.label ≠ q) →
      (∀ e ∈ ds, pyStartsWith q e.label = true → e = d) →
      by_label ds q = some d) := by
  refine ⟨fun ds d hd => ?_, fun ds q hq => ?_, fun ds d q hd hpre hq honly => ?_⟩
  · cases h : ds.find? (fun e => e.label = d.label) with
    | none =>
      have hc := List.find?_eq_none.mp h d hd
      simp at hc
    | some e =>
      exact ⟨e, by simp [by_label, h], by simpa using List.find?_some h⟩
  · have h : ds.find? (fun e => e.label = q) = none :=
      List.find?_eq_none.mpr (fun e he => by simpa using hq e he)
    simp [by_label, h]
  · have h : ds.find? (fun e => e.label = q) = none :=
      List.find?_eq_none.mpr (fun e he => by simpa using hq e he)
    cases hf : ds.find? (fun e => pyStartsWith q e.label) with
    | none =>
      exact absurd (by simpa using List.find?_eq_none.mp hf d hd) (by simp [hpre])
    | some e =>
      have he : e ∈ ds := List.mem_of_find?_eq_some hf
      have : pyStartsWith q e.label = true := by simpa using List.find?_some hf
      have : e = d := honly e he this
      subst this
      simp [by_label, h, hf]

/-- C9 witness: the amended theorem applied to the two-driver collection
and to a query intercepted by nothing. -/
theorem C9_by_label_amended_witness :
    (cexDriverAB ∈ [cexDriverA, cexDriverAB] ∧
      ∃ e, by_label [cexDriverA, cexDriverAB] cexDriverAB.label = some e ∧
        e.label = cexDriverAB.label) ∧
    (pyStartsWith "ABC" cexDriverAB.label = true ∧
      by_label [cexDriverAB] "ABC" = some cexDriverAB) :=
  ⟨⟨by decide, C9_by_label_amended.1 _ cexDriverAB (by decide)⟩,
   ⟨by decide, C9_by_label_amended.2.2 [cexDriverAB] cexDriverAB "ABC"
      (by decide) (by decide) (by decide) (by decide)⟩⟩

/-! ### C3 -/

/-- C3 counterexample: formatting `-0.5027778` with `%9m` does not yield
`-00:30:10`: with no fractional part in the specifier the precision
defaults to the width `9`, whose rendering is `DD:MM:SS.SS`, so the code
produces `-00:30:10.00`. -/
theorem C3_sexagesimal_counterexample :
    formatSexagesimal (mkRat (-5027778) 10000000) "%9m" = "-00:30:10.00" ∧
    "-00:30:10.00" ≠ "-00:30:10" := by
  exact ⟨by decide, by decide⟩

/-- C3 amended: formatting `-0.5027778` with `%9m` yields `-00:30:10.00`
(degrees 00, minutes 30, seconds 10.00), with the leading minus sign
preserved even though the truncated integer-degree part is zero: for every
negative value whose specifier parses, the output is `-` prepended to the
output for the negated (positive) value, so the sign is tracked
independently of the truncated integer. -/
theorem C3_sexagesimal_sign :
    formatSexagesimal (mkRat (-5027778) 10000000) "%9m" = "-00:30:10.00" ∧
    (∀ (v : ℚ) (fmt : String) (w : Nat) (p : Option Nat), v < 0 →
      parseSexFormat fmt = some (w, p) →
      formatSexagesimal v fmt = "-" ++ formatSexagesimal (-v) fmt) := by
  refine ⟨by decide, fun v fmt w p hv hp => ?_⟩
  have hnn : ¬(-v < 0) := by
    simp only [not_lt]
    exact le_of_lt (neg_pos.mpr hv)
  rw [formatSexagesimal, formatSexagesimal, hp]
  simp only [abs_neg]
  rw [if_pos hv, if_neg hnn]

/-- C3 witness: the sign conjunct of the amended theorem applied to the
concrete value `-1/2` and specifier `%9m`. -/
theorem C3_sexagesimal_sign_witness :
    (mkRat (-1) 2 < (0 : ℚ)) ∧ parseSexFormat "%9m" = some (9, none) ∧
    formatSexagesimal (mkRat (-1) 2) "%9m" =
      "-" ++ formatSexagesimal (-(mkRat (-1) 2)) "%9m" :=
  ⟨by decide, by decide, C3_sexagesimal_sign.2 _ "%9m" 9 none (by decide) (by decide)⟩

/-! ### C4 -/

/-- C4: the sexagesimal formatter parses `%<width>[.<precision>]m` with the
precision defaulting to the width when no fractional part is given, renders
per precision code (`9` → `DD:MM:SS.SS`, `8` → `DD:MM:SS.S`, `6` →
`DD:MM:SS`, `5` → `DD:MM.M`, `3` → `DD:MM` with minutes rounded, any other
precision the same as `9`), and in particular `1.105` with `%6.6m` yields
`01:06:18`. -/
theorem C4_sexagesimal_precision_table :
    (formatSexagesimal (mkRat 1105 1000) "%6.6m" = "01:06:18" ∧
      parseSexFormat "%6.6m" = some (6, some 6) ∧
      parseSexFormat "%9m" = some (9, none) ∧
      renderSexMagnitude (mkRat 1105 1000) 9 = "01:06:18.00" ∧
      renderSexMagnitude (mkRat 1105 1000) 8 = "01:06:18.0" ∧
      renderSexMagnitude (mkRat 1105 1000) 6 = "01:06:18" ∧
      renderSexMagnitude (mkRat 1105 1000) 5 = "01:06.3" ∧
      renderSexMagnitude (mkRat 1105 1000) 3 = "01:06") ∧
    (∀ (v : ℚ) (w : Nat) (fmt fmt2 : String),
      parseSexFormat fmt = some (w, none) →
      parseSexFormat fmt2 = some (w, some w) →
      formatSexagesimal v fmt = formatSexagesimal v fmt2) ∧
    (∀ (a : ℚ) (p : Nat), p ≠ 9 → p ≠ 8 → p ≠ 6 → p ≠ 5 → p ≠ 3 →
      renderSexMagnitude a p = renderSexMagnitude a 9) := by
  refine ⟨by decide, fun v w fmt fmt2 h1 h2 => ?_, fun a p h9 h8 h6 h5 h3 => ?_⟩
  · rw [formatSexagesimal, formatSexagesimal, h1, h2]
    simp
  · simp only [renderSexMagnitude, h9, h8, h6, h5, h3, if_false, reduceIte]

/-- C4 witness: the default-precision conjunct applied to `%9m` versus
`%9.9m`, and the fallback conjunct applied at precision `7`. -/
theorem C4_sexagesimal_precision_table_witness :
    (parseSexFormat "%9m" = some (9, none) ∧
      parseSexFormat "%9.9m" = some (9, some 9) ∧
      formatSexagesimal (mkRat 1105 1000) "%9m" =
        formatSexagesimal (mkRat 1105 1000) "%9.9m") ∧
    ((7 : Nat) ≠ 9 ∧
      renderSexMagnitude (mkRat 1105 1000) 7 = renderSexMagnitude (mkRat 1105 1000) 9) :=
  ⟨⟨by decide, by decide,
    C4_sexagesimal_precision_table.2.1 _ 9 "%9m" "%9.9m" (by decide) (by decide)⟩,
   ⟨by decide,
    C4_sexagesimal_precision_table.2.2 _ 7 (by decide) (by decide) (by decide)
      (by decide) (by decide)⟩⟩

/-! ### C6 -/

/-- C6: `set_property` returns a structured error result and leaves the
property model unchanged in each invalid case: a property whose permission
is neither `rw` nor `wo` yields `permission_denied`; a supplied element
name absent from the property yields `element_not_found` (naming an absent
element); a switch property given the value `"Maybe"` (or any value other
than the accepted On/Off spellings) yields `invalid_value`. -/
theorem C6_set_property_error_results :
    (∀ (pyFloat : String → Bool) (env : SendEnv) (model : ClientModel)
        (device prop : String) (p : IndiProperty) (elements : List (String × String)),
      get_property model device prop = some p →
      p.perm ≠ "rw" → p.perm ≠ "wo" →
      set_property pyFloat env model device prop elements
        = (.permissionDenied, model)) ∧
    (∀ (pyFloat : String → Bool) (env : SendEnv) (model : ClientModel)
        (device prop : String) (p : IndiProperty) (elements : List (String × String)),
      get_property model device prop = some p →
      (p.perm = "rw" ∨ p.perm = "wo") →
      (∃ e ∈ elements, dictFind p.elements e.1 = none) →
      ∃ k, set_property pyFloat env model device prop elements
          = (.elementNotFound k, model) ∧ dictFind p.elements k = none) ∧
    (∀ (pyFloat : String → Bool) (env : SendEnv) (model : ClientModel)
        (device prop : String) (p : IndiProperty) (elements : List (String × String)),
      get_property model device prop = some p →
      (p.perm = "rw" ∨ p.perm = "wo") →
      normalizePropType p.ptype = "switch" →
      (∀ e ∈ elements, (dictFind p.elements e.1).isSome) →
      (∃ e ∈ elements, e.2 = "Maybe") →
      ∃ k v, set_property pyFloat env model device prop elements
          = (.invalidValue k, model) ∧ (k, v) ∈ elements ∧
          v ≠ "On" ∧ v ≠ "Off" ∧ v ≠ "ON" ∧ v ≠ "OFF") := by
  refine ⟨fun pyFloat env model device prop p elements hp hrw hwo => ?_,
    fun pyFloat env model device prop p elements hp hperm hmiss => ?_,
    fun pyFloat env model device prop p elements hp hperm htype hall hmaybe => ?_⟩
  · have hperm : (p.perm = "rw" || p.perm = "wo") = false := by
      simp [hrw, hwo]
    simp [set_property, hp, hperm]
  · have hperm' : (p.perm = "rw" || p.perm = "wo") = true := by
      rcases hperm with h | h <;> simp [h]
    cases hf : elements.find? (fun e => (dictFind p.elements e.1).isNone) with
    | none =>
      obtain ⟨e, he, hnone⟩ := hmiss
      have := List.find?_eq_none.mp hf e he
      simp [hnone] at this
    | some e =>
      refine ⟨e.1, ?_, ?_⟩
      · simp [set_property, hp, hperm', hf]
      · have := List.find?_some hf
        simpa [Option.isNone_iff_eq_none] using this
  · have hperm' : (p.perm = "rw" || p.perm = "wo") = true := by
      rcases hperm with h | h <;> simp [h]
    have hf : elements.find? (fun e => (dictFind p.elements e.1).isNone) = none :=
      List.find?_eq_none.mpr (fun e he => by
        have := hall e he
        simp [Option.isSome_iff_exists] at this
        obtain ⟨v, hv⟩ := this
        simp [hv])
    have htext : normalizePropType p.ptype ≠ "text" := by
      rw [htype]; decide
    cases hg : elements.find?
        (fun e => !(e.2 = "On" || e.2 = "Off" || e.2 = "ON" || e.2 = "OFF")) with
    | none =>
      obtain ⟨e, he, hv⟩ := hmaybe
      have := List.find?_eq_none.mp hg e he
      simp [hv] at this
    | some e =>
      have hval := List.find?_some hg
      simp at hval
      obtain ⟨⟨⟨hOn, hOff⟩, hON⟩, hOFF⟩ := hval
      refine ⟨e.1, e.2, ?_, List.mem_of_find?_eq_some hg, hOn, hOff, hON, hOFF⟩
      simp [set_property, hp, hperm', hf, htype, htext, hg, -Bool.not_or]

/-- C6 witness: the three conjuncts applied to a concrete model holding a
read-only text property `INFO` and a writable switch property
`CONNECTION`. -/
theorem C6_set_property_error_results_witness :
    (get_property cexClientModel "CCD Simulator" "INFO" = some cexInfoProp ∧
      cexInfoProp.perm ≠ "rw" ∧ cexInfoProp.perm ≠ "wo" ∧
      set_property (fun _ => true) cexSendEnv cexClientModel "CCD Simulator" "INFO"
        [("DRIVER_NAME", "x")] = (.permissionDenied, cexClientModel)) ∧
    (∃ k, set_property (fun _ => true) cexSendEnv cexClientModel "CCD Simulator"
        "CONNECTION" [("NO_SUCH_ELEMENT", "On")]
        = (.elementNotFound k, cexClientModel) ∧
        dictFind cexConnectionProp.elements k = none) ∧
    (∃ k v, set_property (fun _ => true) cexSendEnv cexClientModel "CCD Simulator"
        "CONNECTION" [("CONNECT", "Maybe")]
        = (.invalidValue k, cexClientModel) ∧
        (k, v) ∈ [("CONNECT", "Maybe")] ∧
        v ≠ "On" ∧ v ≠ "Off" ∧ v ≠ "ON" ∧ v ≠ "OFF") :=
  ⟨⟨by decide, by decide, by decide,
    C6_set_property_error_results.1 (fun _ => true) cexSendEnv cexClientModel
      "CCD Simulator" "INFO" cexInfoProp [("DRIVER_NAME", "x")]
      (by decide) (by decide) (by decide)⟩,
   C6_set_property_error_results.2.1 (fun _ => true) cexSendEnv cexClientModel
     "CCD Simulator" "CONNECTION" cexConnectionProp [("NO_SUCH_ELEMENT", "On")]
     (by decide) (by decide)
     ⟨("NO_SUCH_ELEMENT", "On"), by decide, by decide⟩,
   C6_set_property_error_results.2.2 (fun _ => true) cexSendEnv cexClientModel
     "CCD Simulator" "CONNECTION" cexConnectionProp [("CONNECT", "Maybe")]
     (by decide) (by decide) (by decide) (by decide)
     ⟨("CONNECT", "Maybe"), by decide, by decide⟩⟩

/-! ### C1 -/

theorem start_driver_preserves_other (s : IndiServer) (d : DeviceDriver)
    (l : String) (h : l ≠ d.label) :
    dictFind (s.start_driver d).runningDrivers l = dictFind s.runningDrivers l := by
  cases hpre : preScriptOk d.rule <;> cases hpost : postScriptOk d.rule <;>
    simp [IndiServer.start_driver, hpre, hpost, dictFind_dictInsert_ne _ _ _ _ h]

theorem start_driver_records (s : IndiServer) (d : DeviceDriver)
    (hpre : preScriptOk d.rule = true) (hpost : postScriptOk d.rule = true) :
    (s.start_driver d).runningDrivers = dictInsert s.runningDrivers d.label d := by
  simp [IndiServer.start_driver, hpre, hpost]

theorem foldl_start_driver_not_mem (ds : List DeviceDriver) (s : IndiServer)
    (l : String) (h : l ∉ ds.map DeviceDriver.label) :
    dictFind (ds.foldl IndiServer.start_driver s).runningDrivers l
      = dictFind s.runningDrivers l := by
  induction ds generalizing s with
  | nil => rfl
  | cons d tl ih =>
    simp only [List.map_cons, List.mem_cons, not_or] at h
    rw [List.foldl_cons, ih _ h.2]
    exact start_driver_preserves_other s d l h.1

theorem foldl_start_driver_mem (ds : List DeviceDriver) (s : IndiServer)
    (l : String)
    (hok : ∀ d ∈ ds, preScriptOk d.rule = true ∧ postScriptOk d.rule = true)
    (hl : l ∈ ds.map DeviceDriver.label) :
    ∃ d, d ∈ ds ∧ d.label = l ∧
      dictFind (ds.foldl IndiServer.start_driver s).runningDrivers l = some d := by
  induction ds generalizing s with
  | nil => simp at hl
  | cons d tl ih =>
    by_cases hmem : l ∈ tl.map DeviceDriver.label
    · obtain ⟨e, he, hlab, hfind⟩ :=
        ih (s.start_driver d) (fun x hx => hok x (List.mem_cons_of_mem _ hx)) hmem
      exact ⟨e, List.mem_cons_of_mem _ he, hlab, by rw [List.foldl_cons]; exact hfind⟩
    · have hld : l = d.label := by
        simp only [List.map_cons, List.mem_cons] at hl
        exact hl.resolve_right hmem
      obtain ⟨hpre, hpost⟩ := hok d (List.mem_cons_self d tl)
      refine ⟨d, List.mem_cons_self d tl, hld.symm, ?_⟩
      rw [List.foldl_cons, foldl_start_driver_not_mem tl _ l hmem,
        start_driver_records s d hpre hpost, hld, dictFind_dictInsert_self]

/-- C1: after `start(port, driverList)` with a non-empty driver list, once
the background start queue has drained (`wait_for_drivers_started`),
`get_running_drivers` holds exactly the labels of the drivers passed in,
each mapped to a driver of the list bearing that label — provided no
driver carries a lifecycle rule whose pre- or post-script fails. -/
theorem C1_start_roundtrip (ds : List DeviceDriver) (_hne : ds ≠ [])
    (hok : ∀ d ∈ ds, preScriptOk d.rule = true ∧ postScriptOk d.rule = true) :
    (∀ l : String,
      (dictFind (IndiServer.startAndWaitForDriversStarted ds).get_running_drivers
        l).isSome ↔ l ∈ ds.map DeviceDriver.label) ∧
    (∀ l ∈ ds.map DeviceDriver.label, ∃ d, d ∈ ds ∧ d.label = l ∧
      dictFind (IndiServer.startAndWaitForDriversStarted ds).get_running_drivers
        l = some d) := by
  constructor
  · intro l
    constructor
    · intro hsome
      by_contra hmem
      rw [IndiServer.get_running_drivers, IndiServer.startAndWaitForDriversStarted,
        foldl_start_driver_not_mem ds _ l hmem] at hsome
      simp [dictFind] at hsome
    · intro hmem
      obtain ⟨d, _, _, hfind⟩ := foldl_start_driver_mem ds ⟨[]⟩ l hok hmem
      rw [IndiServer.get_running_drivers, IndiServer.startAndWaitForDriversStarted,
        hfind]
      rfl
  · intro l hmem
    obtain ⟨d, hd, hlab, hfind⟩ := foldl_start_driver_mem ds ⟨[]⟩ l hok hmem
    exact ⟨d, hd, hlab, hfind⟩

/-- C1 witness: the round-trip theorem applied to the one-driver list
`[testDriver]` and its label. -/
theorem C1_start_roundtrip_witness :
    ([testDriver] ≠ ([] : List DeviceDriver)) ∧
    (∀ d ∈ [testDriver], preScriptOk d.rule = true ∧ postScriptOk d.rule = true) ∧
    ((dictFind (IndiServer.startAndWaitForDriversStarted [testDriver]).get_running_drivers
        "CCD Simulator").isSome ↔
      "CCD Simulator" ∈ [testDriver].map DeviceDriver.label) :=
  ⟨by decide, by decide,
   (C1_start_roundtrip [testDriver] (by decide) (by decide)).1 "CCD Simulator"⟩

/-! ### C2 -/

theorem mem_setAdd (l : List String) (x y : String) :
    y ∈ setAdd l x ↔ y ∈ l ∨ y = x := by
  unfold setAdd
  by_cases h : x ∈ l
  · simp only [if_pos h]
    exact ⟨Or.inl, fun hy => hy.elim id (fun hy => hy ▸ h)⟩
  · simp [h]

theorem names_mark_self (s : DirtySets) (d p : String) :
    (s.mark d p).names d = setAdd (s.names d) p := by
  unfold DirtySets.mark DirtySets.names
  cases h : dictFind s.dirty d with
  | some names => simp [dictFind_dictInsert_self]
  | none => simp [dictFind_dictInsert_self, setAdd]

theorem names_mark_other (s : DirtySets) (d d' p : String) (h : d' ≠ d) :
    (s.mark d p).names d' = s.names d' := by
  unfold DirtySets.mark DirtySets.names
  cases hd : dictFind s.dirty d <;> simp [dictFind_dictInsert_ne _ _ _ _ h]

theorem mem_names_applyEvent (s : DirtySets) (e : IndiEvent) (d p : String) :
    p ∈ (s.applyEvent e).names d ↔
      p ∈ s.names d ∨ e = .defineProperty d p ∨ e = .updateProperty d p := by
  cases e with
  | defineProperty d0 p0 =>
    by_cases hd : d = d0
    · subst hd
      rw [DirtySets.applyEvent, names_mark_self, mem_setAdd]
      simp [eq_comm]
    · rw [DirtySets.applyEvent, names_mark_other _ _ _ _ hd]
      constructor
      · exact Or.inl
      · rintro (h | h | h)
        · exact h
        · cases h
          exact absurd rfl hd
        · cases h
  | updateProperty d0 p0 =>
    by_cases hd : d = d0
    · subst hd
      rw [DirtySets.applyEvent, names_mark_self, mem_setAdd]
      simp [eq_comm]
    · rw [DirtySets.applyEvent, names_mark_other _ _ _ _ hd]
      constructor
      · exact Or.inl
      · rintro (h | h | h)
        · exact h
        · cases h
        · cases h
          exact absurd rfl hd

theorem mem_names_applyEvents (evs : List IndiEvent) (s : DirtySets)
    (d p : String) :
    p ∈ (s.applyEvents evs).names d ↔
      p ∈ s.names d ∨ .defineProperty d p ∈ evs ∨ .updateProperty d p ∈ evs := by
  induction evs generalizing s with
  | nil => simp [DirtySets.applyEvents]
  | cons e tl ih =>
    rw [DirtySets.applyEvents, List.foldl_cons]
    rw [show tl.foldl DirtySets.applyEvent (s.applyEvent e)
        = (s.applyEvent e).applyEvents tl from rfl, ih, mem_names_applyEvent]
    simp only [List.mem_cons]
    constructor
    · rintro ((h | h | h) | h | h) <;> tauto
    · rintro (h | (h | h) | (h | h)) <;> tauto

/-- C2: the dirty sets record every property definition or update event
under the event's device, and `get_dirty_properties` drains them: starting
from a state with no dirty names for the device, after any sequence of
events the drained list holds exactly the names of that device's
definition/update events, and a second drain with no intervening events
returns an empty result. -/
theorem C2_dirty_drain (s : DirtySets) (device : String) (evs : List IndiEvent)
    (hclean : s.names device = []) :
    (∀ p, p ∈ ((s.applyEvents evs).get_dirty_properties device).1 ↔
      .defineProperty device p ∈ evs ∨ .updateProperty device p ∈ evs) ∧
    (((s.applyEvents evs).get_dirty_properties device).2.get_dirty_properties
      device).1 = [] := by
  constructor
  · intro p
    show p ∈ (s.applyEvents evs).names device ↔ _
    rw [mem_names_applyEvents, hclean]
    simp
  · show (DirtySets.names _ device) = []
    simp [DirtySets.get_dirty_properties, DirtySets.names,
      dictFind_dictInsert_self]

/-- C2 witness: the drain theorem applied to an initially empty dirty
state and a definition event followed by an update event for
`CCD Simulator`'s property `CCD_EXPOSURE`. -/
theorem C2_dirty_drain_witness :
    (DirtySets.mk []).names "CCD Simulator" = [] ∧
    ((∀ p, p ∈ (((DirtySets.mk []).applyEvents
        [.defineProperty "CCD Simulator" "CCD_EXPOSURE",
         .updateProperty "CCD Simulator" "CCD_EXPOSURE"]).get_dirty_properties
        "CCD Simulator").1 ↔
      IndiEvent.defineProperty "CCD Simulator" p ∈
        [IndiEvent.defineProperty "CCD Simulator" "CCD_EXPOSURE",
         IndiEvent.updateProperty "CCD Simulator" "CCD_EXPOSURE"] ∨
      IndiEvent.updateProperty "CCD Simulator" p ∈
        [IndiEvent.defineProperty "CCD Simulator" "CCD_EXPOSURE",
         IndiEvent.updateProperty "CCD Simulator" "CCD_EXPOSURE"]) ∧
    ((((DirtySets.mk []).applyEvents
        [.defineProperty "CCD Simulator" "CCD_EXPOSURE",
         .updateProperty "CCD Simulator" "CCD_EXPOSURE"]).get_dirty_properties
        "CCD Simulator").2.get_dirty_properties "CCD Simulator").1 = []) :=
  ⟨rfl, C2_dirty_drain ⟨[]⟩ "CCD Simulator"
    [.defineProperty "CCD Simulator" "CCD_EXPOSURE",
     .updateProperty "CCD Simulator" "CCD_EXPOSURE"] rfl⟩

end IndiWeb
